import Mathlib

/-!
Verification of the AIGateway MCP server (src/mcp-server/src/mcp_server.py).

The program is a thin HTTP facade: an `AIGatewayClient` with four methods
(list_models, get_custom_mappings, create_mapping, update_mapping), each
performing one HTTP call, plus three tool handlers (list_models,
create_mapping, update_mapping) that shape inputs and convert results and
errors to display strings.

Shallow embedding choices:
* JSON values are the inductive `Json` (python dicts are ordered
  association lists, which matches insertion-ordered python dicts).
* The network is an oracle `Net : Request → Except String Json`; a
  successful HTTP round-trip (2xx status plus body decode, i.e.
  `response.raise_for_status(); response.json()`) yields `Except.ok body`,
  and any `httpx.HTTPError` (non-2xx status or transport failure) yields
  `Except.error message`.
* Python exceptions are `Except.error` values threaded explicitly;
  `dict.get` on a non-dict raises `AttributeError` and `len` on a
  non-sized value raises `TypeError`, both modelled as `Except.error`.
* Each client method and handler returns, besides its result, the list of
  HTTP requests it issued, so that claims about what was (or was not)
  sent over the wire are statable.
-/

/-- JSON values as decoded by `response.json()`. Numbers are restricted to
integers, which covers everything this program computes (`len` counts). -/
inductive Json where
  | null : Json
  | bool : Bool → Json
  | num : Int → Json
  | str : String → Json
  | arr : List Json → Json
  | obj : List (String × Json) → Json

/-- An HTTP request as assembled by httpx: method, full URL, headers and
optional JSON body. -/
structure Request where
  method : String
  url : String
  headers : List (String × String)
  body : Option Json

/-- The network oracle: what the gateway answers to each request.
`Except.ok` is a 2xx response with decoded JSON body; `Except.error` is any
`httpx.HTTPError` (non-2xx status after `raise_for_status`, or transport
failure), carrying the exception message. -/
def Net : Type := Request → Except String Json

/-- First binding of a key in an association list, i.e. python dict lookup
(keys are unique in a decoded JSON object, so first binding is the
binding). -/
def lookupField : List (String × Json) → String → Option Json
  | [], _ => none
  | (k, v) :: rest, key => if k = key then some v else lookupField rest key

/-- Python `d.get(key, default)`. On a non-dict receiver python raises
`AttributeError`, modelled as `Except.error`. -/
def pyDictGet : Json → String → Json → Except String Json
  | Json.obj fields, key, d => Except.ok ((lookupField fields key).getD d)
  | _, _, _ => Except.error ("AttributeError: object has no attribute get")

/-- Python `len`: defined on lists, strings and dicts; raises `TypeError`
otherwise. -/
def pyLen : Json → Except String Nat
  | Json.arr xs => Except.ok xs.length
  | Json.str s => Except.ok s.length
  | Json.obj fields => Except.ok fields.length
  | _ => Except.error ("TypeError: object has no len")

/-- Escaped single quote, for rendering python `repr` output. -/
def sQuote : String := "\x27"

mutual

/-- Python `str()` of a decoded JSON value (python repr of the
corresponding dict/list/str/int/bool/None), used by the handlers to
stringify their result objects. -/
def pyRepr : Json → String
  | Json.null => "None"
  | Json.bool true => "True"
  | Json.bool false => "False"
  | Json.num n => toString n
  | Json.str s => sQuote ++ s ++ sQuote
  | Json.arr xs => "[" ++ pyReprItems xs ++ "]"
  | Json.obj fields => "\x7b" ++ pyReprFields fields ++ "\x7d"

/-- Comma-separated repr of list items. -/
def pyReprItems : List Json → String
  | [] => ""
  | [x] => pyRepr x
  | x :: xs => pyRepr x ++ ", " ++ pyReprItems xs

/-- Comma-separated repr of dict entries. -/
def pyReprFields : List (String × Json) → String
  | [] => ""
  | [(k, v)] => sQuote ++ k ++ sQuote ++ ": " ++ pyRepr v
  | (k, v) :: fs => sQuote ++ k ++ sQuote ++ ": " ++ pyRepr v ++ ", " ++ pyReprFields fs

end

/-- The `AIGatewayClient` constructor state: base URL and default API key
(from `AIGATEWAY_URL` and `AIGATEWAY_API_KEY`). -/
structure AIGatewayClient where
  base_url : String
  api_key : String

/-- The GET request issued by `AIGatewayClient.list_models` through the
instance `httpx.Client` (its `X-API-Key` header is attached only when the
default key is non-empty, mirroring `headers=... if api_key else \x7b\x7d`). -/
def modelsRequest (c : AIGatewayClient) : Request where
  method := "GET"
  url := c.base_url ++ "/v1/models"
  headers := if c.api_key = "" then [] else [("X-API-Key", c.api_key)]
  body := none

/-- The GET request issued by `AIGatewayClient.get_custom_mappings`. -/
def mappingsGetRequest (c : AIGatewayClient) (api_key : String) : Request where
  method := "GET"
  url := c.base_url ++ "/api/v1/model-mappings"
  headers := [("X-API-Key", api_key)]
  body := none

/-- The POST request issued by `AIGatewayClient.create_mapping`. -/
def mappingsPostRequest (c : AIGatewayClient) (api_key : String)
    (payload : List (String × Json)) : Request where
  method := "POST"
  url := c.base_url ++ "/api/v1/model-mappings"
  headers := [("X-API-Key", api_key)]
  body := some (Json.obj payload)

/-- The PUT request issued by `AIGatewayClient.update_mapping`. -/
def mappingsPutRequest (c : AIGatewayClient) (api_key alias' : String)
    (payload : List (String × Json)) : Request where
  method := "PUT"
  url := c.base_url ++ "/api/v1/model-mappings/" ++ alias'
  headers := [("X-API-Key", api_key)]
  body := some (Json.obj payload)

/-- `AIGatewayClient.list_models`: GET `/v1/models` through the instance
client, `raise_for_status`, return decoded JSON. Second component is the
trace of issued requests. -/
def AIGatewayClient.list_models (c : AIGatewayClient) (net : Net) :
    Except String Json × List Request :=
  (net (modelsRequest c), [modelsRequest c])

/-- `AIGatewayClient.get_custom_mappings`: GET the mappings endpoint with
the caller key, then `response.json().get("data", [])`. The `user_id`
parameter is accepted but unused, as in the source. -/
def AIGatewayClient.get_custom_mappings (c : AIGatewayClient) (net : Net)
    (user_id api_key : String) : Except String Json × List Request :=
  ((match net (mappingsGetRequest c api_key) with
    | Except.ok body => pyDictGet body ("data") (Json.arr [])
    | Except.error e => Except.error e),
   [mappingsGetRequest c api_key])

/-- The JSON payload assembled by `AIGatewayClient.create_mapping`:
alias, provider_id, model_name always; description only when truthy
(non-empty). -/
def createPayload (alias' provider_id model_name description : String) :
    List (String × Json) :=
  [("alias", Json.str alias'),
   ("provider_id", Json.str provider_id),
   ("model_name", Json.str model_name)]
  ++ (if description = "" then [] else [("description", Json.str description)])

/-- `AIGatewayClient.create_mapping`: POST the payload, `raise_for_status`,
return decoded JSON. -/
def AIGatewayClient.create_mapping (c : AIGatewayClient) (net : Net)
    (api_key alias' provider_id model_name description : String) :
    Except String Json × List Request :=
  (net (mappingsPostRequest c api_key
      (createPayload alias' provider_id model_name description)),
   [mappingsPostRequest c api_key
      (createPayload alias' provider_id model_name description)])

/-- The JSON payload assembled by `AIGatewayClient.update_mapping`:
`if provider_id:` and `if model_name:` test python truthiness (present iff
non-None and non-empty), while `if description is not None:` and
`if enabled is not None:` test only for None. -/
def updatePayload (provider_id model_name description : Option String)
    (enabled : Option Bool) : List (String × Json) :=
  (match provider_id with
   | some p => if p = "" then [] else [("provider_id", Json.str p)]
   | none => [])
  ++ (match model_name with
   | some m => if m = "" then [] else [("model_name", Json.str m)]
   | none => [])
  ++ (match description with
   | some d => [("description", Json.str d)]
   | none => [])
  ++ (match enabled with
   | some b => [("enabled", Json.bool b)]
   | none => [])

/-- `AIGatewayClient.update_mapping`: PUT the per-field payload to the
per-alias endpoint, `raise_for_status`, return decoded JSON. -/
def AIGatewayClient.update_mapping (c : AIGatewayClient) (net : Net)
    (api_key alias' : String)
    (provider_id model_name description : Option String)
    (enabled : Option Bool) : Except String Json × List Request :=
  (net (mappingsPutRequest c api_key alias'
      (updatePayload provider_id model_name description enabled)),
   [mappingsPutRequest c api_key alias'
      (updatePayload provider_id model_name description enabled)])

/-- The try-block of the `list_models` tool handler, up to the `str()`
call: fetch built-in models, take their `"models"` key (default `[]`),
fetch custom mappings, and build the result object with
`total = len(built_in_models) + len(custom_mappings)`. `Except.error` is a
python exception escaping the try-block. -/
def list_models_core (c : AIGatewayClient) (net : Net) (api_key : String) :
    Except String Json × List Request :=
  match c.list_models net with
  | (Except.error e, t1) => (Except.error e, t1)
  | (Except.ok models_response, t1) =>
    match pyDictGet models_response ("models") (Json.arr []) with
    | Except.error e => (Except.error e, t1)
    | Except.ok built_in_models =>
      match c.get_custom_mappings net ("") api_key with
      | (Except.error e, t2) => (Except.error e, t1 ++ t2)
      | (Except.ok custom_mappings, t2) =>
        match pyLen built_in_models, pyLen custom_mappings with
        | Except.ok n1, Except.ok n2 =>
          (Except.ok (Json.obj
             [("built_in_models", built_in_models),
              ("custom_mappings", custom_mappings),
              ("total", Json.num (Int.ofNat (n1 + n2)))]),
           t1 ++ t2)
        | Except.error e, _ => (Except.error e, t1 ++ t2)
        | Except.ok _, Except.error e => (Except.error e, t1 ++ t2)

/-- The `list_models` tool handler: `str(result)` on success, otherwise
the `except Exception` branch formatting
`"Error: Failed to list models: " + str(e)`. -/
def list_models (c : AIGatewayClient) (net : Net) (api_key : String) :
    String × List Request :=
  let call := list_models_core c net api_key
  ((match call.1 with
    | Except.ok result => pyRepr result
    | Except.error e => "Error: Failed to list models: " ++ e),
   call.2)

/-- The provider allow-list of the `create_mapping` handler. -/
def valid_providers : List String := ["antigravity", "openai", "glm"]

/-- The `create_mapping` tool handler: rejects a provider_id outside the
allow-list with an error string before any client call; otherwise calls
`client.create_mapping` and stringifies the result, converting any
exception to an `"Error: ..."` string. -/
def create_mapping (c : AIGatewayClient) (net : Net)
    (api_key alias' provider_id model_name description : String) :
    String × List Request :=
  if provider_id ∈ valid_providers then
    let call := c.create_mapping net api_key alias' provider_id model_name description
    ((match call.1 with
      | Except.ok result => pyRepr result
      | Except.error e => "Error: Failed to create mapping: " ++ e),
     call.2)
  else
    ("Error: Invalid provider_id. Must be one of: \x7b\x27antigravity\x27, \x27openai\x27, \x27glm\x27\x7d",
     [])

/-- The `update_mapping` tool handler: converts each empty-string optional
field to None before delegating to `client.update_mapping` (enabled is
passed through unchanged); `new_alias` is accepted but never forwarded.
Converts any exception to an `"Error: ..."` string. -/
def update_mapping (c : AIGatewayClient) (net : Net)
    (api_key alias' new_alias provider_id model_name description : String)
    (enabled : Option Bool) : String × List Request :=
  let call := c.update_mapping net api_key alias'
      (if provider_id = "" then none else some provider_id)
      (if model_name = "" then none else some model_name)
      (if description = "" then none else some description)
      enabled
  ((match call.1 with
    | Except.ok result => pyRepr result
    | Except.error e => "Error: Failed to update mapping: " ++ e),
   call.2)

/-- A display string signalling failure: the handlers prefix every caught
error with `"Error:"`. -/
def isErrorString (s : String) : Prop := ∃ rest, s = "Error:" ++ rest

/-- The keys of the JSON body of a request (empty when there is no object
body). -/
def Request.bodyKeys (r : Request) : List String :=
  match r.body with
  | some (Json.obj fields) => fields.map Prod.fst
  | _ => []

/-- Lookup of a key in the JSON object body of a request. -/
def Request.bodyField (r : Request) (key : String) : Option Json :=
  match r.body with
  | some (Json.obj fields) => lookupField fields key
  | _ => none

/-- Lookup of a key in a JSON object (none on non-objects). -/
def jsonLookup : Json → String → Option Json
  | Json.obj fields, key => lookupField fields key
  | _, _ => none

/-- A gateway on which every request fails with the same HTTP error
(e.g. HTTP 500 on every endpoint). -/
def failNet : Net := fun _ => Except.error ("Server error 500 Internal Server Error")

/-- The client built at startup from the default environment values
(`AIGATEWAY_URL` = http://localhost:8088, `AIGATEWAY_API_KEY` = empty). -/
def witClient : AIGatewayClient where
  base_url := "http://localhost:8088"
  api_key := ""

/-- A gateway answering every request with an empty JSON object. -/
def emptyObjNet : Net := fun _ => Except.ok (Json.obj [])

/-- A gateway with one built-in model and one custom mapping. -/
def smallNet : Net := fun req =>
  if req.url = "http://localhost:8088/v1/models" then
    Except.ok (Json.obj [("models", Json.arr [Json.str ("gpt-4")])])
  else
    Except.ok (Json.obj [("data", Json.arr [Json.str ("my-gpt")])])

/-- The result object computed by the `list_models` handler on
`smallNet`. -/
def witTotalsJson : Json := Json.obj
  [("built_in_models", Json.arr [Json.str ("gpt-4")]),
   ("custom_mappings", Json.arr [Json.str ("my-gpt")]),
   ("total", Json.num (Int.ofNat 2))]

/-- Helper: a string of the form `("Error:" ++ mid) ++ e` is an error
string. -/
theorem isErrorString_append (mid e s : String)
    (h : s = ("Error:" ++ mid) ++ e) : isErrorString s :=
  ⟨mid ++ e, by rw [h, String.append_assoc]⟩

/-- Claim C1: for every call to the `create_mapping` tool handler with a
provider_id outside the allow-list, the handler returns a string starting
with `"Error:"` and issues no HTTP request (the client is never invoked,
so the request trace is empty). -/
theorem create_mapping_rejects_invalid_provider (c : AIGatewayClient) (net : Net)
    (api_key alias' provider_id model_name description : String)
    (h : provider_id ∉ valid_providers) :
    isErrorString (create_mapping c net api_key alias' provider_id model_name description).1 ∧
    (create_mapping c net api_key alias' provider_id model_name description).2 = [] := by
  unfold create_mapping
  rw [if_neg h]
  exact ⟨⟨" Invalid provider_id. Must be one of: \x7b\x27antigravity\x27, \x27openai\x27, \x27glm\x27\x7d", rfl⟩, rfl⟩

/-- Witness for C1 at the concrete invalid provider `"grok"`. -/
theorem create_mapping_rejects_invalid_provider_witness :
    ("grok" ∉ valid_providers) ∧
    (isErrorString (create_mapping witClient failNet ("k") ("a") ("grok") ("m") ("")).1 ∧
     (create_mapping witClient failNet ("k") ("a") ("grok") ("m") ("")).2 = []) :=
  ⟨by decide,
   create_mapping_rejects_invalid_provider witClient failNet ("k") ("a") ("grok") ("m") ("")
     (by decide)⟩

/-- Claim C7: when the HTTP call of `get_custom_mappings` succeeds with a
decoded JSON object body, the method returns the value of the `"data"`
key of that body, and the empty list when that key is absent
(`response.json().get("data", [])`). -/
theorem get_custom_mappings_data_field (c : AIGatewayClient) (net : Net)
    (user_id api_key : String) (fields : List (String × Json))
    (h : net (mappingsGetRequest c api_key) = Except.ok (Json.obj fields)) :
    (c.get_custom_mappings net user_id api_key).1 =
      Except.ok ((lookupField fields ("data")).getD (Json.arr [])) := by
  unfold AIGatewayClient.get_custom_mappings
  rw [h]
  rfl

/-- Witness for C7: a gateway whose mappings response is an object without
a `"data"` key makes the method return the empty list. -/
theorem get_custom_mappings_data_field_witness :
    (emptyObjNet (mappingsGetRequest witClient ("k")) = Except.ok (Json.obj [])) ∧
    (witClient.get_custom_mappings emptyObjNet ("") ("k")).1 =
      Except.ok ((lookupField [] ("data")).getD (Json.arr [])) :=
  ⟨rfl, get_custom_mappings_data_field witClient emptyObjNet ("") ("k") [] rfl⟩

/-- Claim C8: the `new_alias` parameter of the `update_mapping` tool
handler is dead: two invocations differing only in `new_alias` produce the
same result string and the same request trace (in particular the same
arguments reach the underlying client call). -/
theorem update_mapping_ignores_new_alias (c : AIGatewayClient) (net : Net)
    (api_key alias' na1 na2 provider_id model_name description : String)
    (enabled : Option Bool) :
    update_mapping c net api_key alias' na1 provider_id model_name description enabled =
    update_mapping c net api_key alias' na2 provider_id model_name description enabled := rfl

/-- Helper: the keys present in the PUT payload assembled by
`AIGatewayClient.update_mapping`. -/
theorem updatePayload_keys (pid mn d : Option String) (en : Option Bool) (k : String) :
    k ∈ (updatePayload pid mn d en).map Prod.fst ↔
      ((k = "provider_id" ∧ ∃ p, pid = some p ∧ p ≠ "") ∨
       (k = "model_name" ∧ ∃ m, mn = some m ∧ m ≠ "") ∨
       (k = "description" ∧ d ≠ none) ∨
       (k = "enabled" ∧ en ≠ none)) := by
  unfold updatePayload
  cases pid <;> cases mn <;> cases d <;> cases en <;>
    simp only [List.map_append, List.mem_append] <;>
    (try split_ifs) <;>
    simp_all <;>
    tauto

/-- Claim C3 is false as stated: the client `update_mapping` drops a
non-null provider_id when it is the empty string, because the source
tests python truthiness (`if provider_id:`) rather than non-null-ness.
Here provider_id = some "" is non-null, yet the PUT body has no keys at
all. -/
theorem update_mapping_nonnull_dropped :
    (some ("") ≠ (none : Option String)) ∧
    ((AIGatewayClient.update_mapping witClient failNet ("k") ("a")
        (some ("")) none none none).2.map Request.bodyKeys) = [[]] := by
  constructor
  · simp
  · rfl

/-- Claim C3 (amended): the PUT body of `AIGatewayClient.update_mapping`
contains exactly the provider_id and model_name fields whose argument is
non-null and non-empty (python truthiness), together with the description
and enabled fields whose argument is non-null. -/
theorem update_mapping_put_body_fields (c : AIGatewayClient) (net : Net)
    (api_key alias' : String) (provider_id model_name description : Option String)
    (enabled : Option Bool) :
    ∃ req,
      (c.update_mapping net api_key alias' provider_id model_name description enabled).2 = [req] ∧
      ∀ k, k ∈ req.bodyKeys ↔
        ((k = "provider_id" ∧ ∃ p, provider_id = some p ∧ p ≠ "") ∨
         (k = "model_name" ∧ ∃ m, model_name = some m ∧ m ≠ "") ∨
         (k = "description" ∧ description ≠ none) ∨
         (k = "enabled" ∧ enabled ≠ none)) := by
  refine ⟨_, rfl, fun k => ?_⟩
  have hkeys : (mappingsPutRequest c api_key alias'
      (updatePayload provider_id model_name description enabled)).bodyKeys =
      (updatePayload provider_id model_name description enabled).map Prod.fst := rfl
  rw [hkeys]
  exact updatePayload_keys provider_id model_name description enabled k

/-- Claim C4: the request body sent by the `update_mapping` tool handler
contains each of the four forwarded fields exactly when its input value
is non-empty (for enabled: when it is set), and no other keys. -/
theorem update_mapping_handler_body_fields (c : AIGatewayClient) (net : Net)
    (api_key alias' new_alias provider_id model_name description : String)
    (enabled : Option Bool) :
    ∃ req,
      (update_mapping c net api_key alias' new_alias provider_id model_name description
        enabled).2 = [req] ∧
      ∀ k, k ∈ req.bodyKeys ↔
        ((k = "provider_id" ∧ provider_id ≠ "") ∨
         (k = "model_name" ∧ model_name ≠ "") ∨
         (k = "description" ∧ description ≠ "") ∨
         (k = "enabled" ∧ enabled ≠ none)) := by
  refine ⟨_, rfl, fun k => ?_⟩
  have hkeys : ∀ payload, (mappingsPutRequest c api_key alias' payload).bodyKeys =
      payload.map Prod.fst := fun _ => rfl
  rw [hkeys]
  rw [updatePayload_keys]
  by_cases hp : provider_id = "" <;> by_cases hm : model_name = "" <;>
    by_cases hd : description = "" <;> simp [hp, hm, hd]

/-- Claim C10: the `update_mapping` tool handler forwards enabled = false:
the outgoing PUT body contains the key `"enabled"` with value `false`
(the source tests `enabled is not None`, so a false boolean is not
treated as unset). -/
theorem update_mapping_enabled_false_forwarded (c : AIGatewayClient) (net : Net)
    (api_key alias' new_alias provider_id model_name description : String) :
    ∃ req,
      (update_mapping c net api_key alias' new_alias provider_id model_name description
        (some false)).2 = [req] ∧
      req.bodyField ("enabled") = some (Json.bool false) := by
  refine ⟨_, rfl, ?_⟩
  show lookupField (updatePayload _ _ _ (some false)) ("enabled") = some (Json.bool false)
  by_cases hp : provider_id = "" <;> by_cases hm : model_name = "" <;>
    by_cases hd : description = "" <;>
    simp [updatePayload, lookupField, hp, hm, hd]

/-- Claim C6: the POST body sent by the `create_mapping` tool handler (for
an allowed provider) always contains the alias, provider_id and
model_name keys, and contains a description key exactly when the
description argument is non-empty; in particular the concrete call of the
claim sends no description key. -/
theorem create_mapping_description_only_nonempty (c : AIGatewayClient) (net : Net)
    (api_key alias' provider_id model_name description : String)
    (h : provider_id ∈ valid_providers) :
    ∃ req, (create_mapping c net api_key alias' provider_id model_name description).2 = [req] ∧
      req.method = "POST" ∧
      req.bodyKeys = ["alias", "provider_id", "model_name"] ++
        (if description = "" then [] else ["description"]) := by
  unfold create_mapping
  rw [if_pos h]
  refine ⟨_, rfl, rfl, ?_⟩
  by_cases hd : description = "" <;>
    simp [Request.bodyKeys, mappingsPostRequest, createPayload, hd]

/-- Witness for C6 at the concrete input of the claim: alias "my-gpt",
provider "openai", model "gpt-4", empty description. -/
theorem create_mapping_description_only_nonempty_witness :
    ("openai" ∈ valid_providers) ∧
    ∃ req,
      (create_mapping witClient emptyObjNet ("k") ("my-gpt") ("openai") ("gpt-4") ("")).2 = [req] ∧
      req.method = "POST" ∧
      req.bodyKeys = ["alias", "provider_id", "model_name"] ++
        (if ("" : String) = "" then [] else ["description"]) :=
  ⟨by decide,
   create_mapping_description_only_nonempty witClient emptyObjNet
     ("k") ("my-gpt") ("openai") ("gpt-4") ("") (by decide)⟩

/-- Claim C2: whenever the `list_models` tool handler builds its result
object and the two underlying calls produced lists, the result object
reports a total field equal to the length of the built-in list plus the
length of the custom-mappings list. -/
theorem list_models_total (c : AIGatewayClient) (net : Net) (api_key : String)
    (j : Json) (bs cs : List Json)
    (h : (list_models_core c net api_key).1 = Except.ok j)
    (hb : jsonLookup j ("built_in_models") = some (Json.arr bs))
    (hc : jsonLookup j ("custom_mappings") = some (Json.arr cs)) :
    jsonLookup j ("total") = some (Json.num (Int.ofNat (bs.length + cs.length))) := by
  cases hm : net (modelsRequest c) with
  | error e => simp [list_models_core, AIGatewayClient.list_models, hm] at h
  | ok models_response =>
  cases hg : pyDictGet models_response ("models") (Json.arr []) with
  | error e =>
    simp [list_models_core, AIGatewayClient.list_models, hm, hg] at h
  | ok built =>
  cases hn : net (mappingsGetRequest c api_key) with
  | error e =>
    simp [list_models_core, AIGatewayClient.list_models,
      AIGatewayClient.get_custom_mappings, hm, hg, hn] at h
  | ok mbody =>
  cases hd : pyDictGet mbody ("data") (Json.arr []) with
  | error e =>
    simp [list_models_core, AIGatewayClient.list_models,
      AIGatewayClient.get_custom_mappings, hm, hg, hn, hd] at h
  | ok custom =>
  cases hl1 : pyLen built with
  | error e =>
    simp [list_models_core, AIGatewayClient.list_models,
      AIGatewayClient.get_custom_mappings, hm, hg, hn, hd, hl1] at h
  | ok n1 =>
  cases hl2 : pyLen custom with
  | error e =>
    simp [list_models_core, AIGatewayClient.list_models,
      AIGatewayClient.get_custom_mappings, hm, hg, hn, hd, hl1, hl2] at h
  | ok n2 =>
  simp [list_models_core, AIGatewayClient.list_models,
    AIGatewayClient.get_custom_mappings, hm, hg, hn, hd, hl1, hl2] at h
  subst h
  simp [jsonLookup, lookupField] at hb hc
  subst hb
  subst hc
  simp [pyLen] at hl1 hl2
  simp [jsonLookup, lookupField, hl1, hl2]

/-- Witness for C2 on a gateway with one built-in model and one custom
mapping: the reported total is 2 = 1 + 1. -/
theorem list_models_total_witness :
    ((list_models_core witClient smallNet ("k")).1 = Except.ok witTotalsJson) ∧
    jsonLookup witTotalsJson ("total") =
      some (Json.num (Int.ofNat ([Json.str ("gpt-4")].length + [Json.str ("my-gpt")].length))) :=
  ⟨rfl,
   list_models_total witClient smallNet ("k") witTotalsJson
     [Json.str ("gpt-4")] [Json.str ("my-gpt")] rfl rfl rfl⟩

/-- Helper: `dict.get` on an object body returns the looked-up value or
the default. -/
theorem pyDictGet_obj (fs : List (String × Json)) (key : String) (d : Json) :
    pyDictGet (Json.obj fs) key d = Except.ok ((lookupField fs key).getD d) := rfl

/-- Claim C9: the built_in_models list reported by the `list_models`
handler is the value of the "models" key of the JSON object returned by
the models call, defaulting to the empty list when that key is absent;
the whole response object is never used as the model list. -/
theorem list_models_built_in_from_models_key (c : AIGatewayClient) (net : Net)
    (api_key : String) (fields : List (String × Json)) (j : Json)
    (hm : net (modelsRequest c) = Except.ok (Json.obj fields))
    (h : (list_models_core c net api_key).1 = Except.ok j) :
    jsonLookup j ("built_in_models") =
      some ((lookupField fields ("models")).getD (Json.arr [])) := by
  cases hn : net (mappingsGetRequest c api_key) with
  | error e =>
    simp [list_models_core, AIGatewayClient.list_models,
      AIGatewayClient.get_custom_mappings, pyDictGet_obj, hm, hn] at h
  | ok mbody =>
  cases hd : pyDictGet mbody ("data") (Json.arr []) with
  | error e =>
    simp [list_models_core, AIGatewayClient.list_models,
      AIGatewayClient.get_custom_mappings, pyDictGet_obj, hm, hn, hd] at h
  | ok custom =>
  cases hl1 : pyLen ((lookupField fields ("models")).getD (Json.arr [])) with
  | error e =>
    simp [list_models_core, AIGatewayClient.list_models,
      AIGatewayClient.get_custom_mappings, pyDictGet_obj, hm, hn, hd, hl1] at h
  | ok n1 =>
  cases hl2 : pyLen custom with
  | error e =>
    simp [list_models_core, AIGatewayClient.list_models,
      AIGatewayClient.get_custom_mappings, pyDictGet_obj, hm, hn, hd, hl1, hl2] at h
  | ok n2 =>
  simp [list_models_core, AIGatewayClient.list_models,
    AIGatewayClient.get_custom_mappings, pyDictGet_obj, hm, hn, hd, hl1, hl2] at h
  subst h
  simp [jsonLookup, lookupField]

/-- Witness for C9 on the same small gateway: built_in_models is the
value of the "models" key of the models response. -/
theorem list_models_built_in_from_models_key_witness :
    (smallNet (modelsRequest witClient) =
      Except.ok (Json.obj [("models", Json.arr [Json.str ("gpt-4")])])) ∧
    jsonLookup witTotalsJson ("built_in_models") =
      some ((lookupField [("models", Json.arr [Json.str ("gpt-4")])] ("models")).getD
        (Json.arr [])) :=
  ⟨rfl,
   list_models_built_in_from_models_key witClient smallNet ("k")
     [("models", Json.arr [Json.str ("gpt-4")])] witTotalsJson rfl rfl⟩

/-- Claim C5: when the gateway fails every request (e.g. returns HTTP 500
on every endpoint), each of the three tool handlers returns an
"Error:"-prefixed string as its normal result value. -/
theorem handlers_error_on_http_failure (c : AIGatewayClient) (net : Net) (e : String)
    (api_key alias' new_alias provider_id model_name description : String)
    (enabled : Option Bool)
    (hnet : ∀ r, net r = Except.error e) :
    isErrorString (list_models c net api_key).1 ∧
    isErrorString (create_mapping c net api_key alias' provider_id model_name description).1 ∧
    isErrorString (update_mapping c net api_key alias' new_alias provider_id model_name
      description enabled).1 := by
  refine ⟨?_, ?_, ?_⟩
  · have h1 : (list_models c net api_key).1 = "Error: Failed to list models: " ++ e := by
      simp [list_models, list_models_core, AIGatewayClient.list_models, hnet]
    exact isErrorString_append (" Failed to list models: ") e _ h1
  · by_cases hp : provider_id ∈ valid_providers
    · have h2 : (create_mapping c net api_key alias' provider_id model_name description).1 =
          "Error: Failed to create mapping: " ++ e := by
        simp [create_mapping, AIGatewayClient.create_mapping, hp, hnet]
      exact isErrorString_append (" Failed to create mapping: ") e _ h2
    · have h2 : (create_mapping c net api_key alias' provider_id model_name description).1 =
          "Error: Invalid provider_id. Must be one of: \x7b\x27antigravity\x27, \x27openai\x27, \x27glm\x27\x7d" := by
        unfold create_mapping
        rw [if_neg hp]
      exact ⟨" Invalid provider_id. Must be one of: \x7b\x27antigravity\x27, \x27openai\x27, \x27glm\x27\x7d",
        by rw [h2]; rfl⟩
  · have h3 : (update_mapping c net api_key alias' new_alias provider_id model_name
        description enabled).1 = "Error: Failed to update mapping: " ++ e := by
      simp [update_mapping, AIGatewayClient.update_mapping, hnet]
    exact isErrorString_append (" Failed to update mapping: ") e _ h3

/-- Witness for C5: a gateway answering HTTP 500 everywhere makes all
three handlers answer with error strings. -/
theorem handlers_error_on_http_failure_witness :
    (∀ r, failNet r = Except.error ("Server error 500 Internal Server Error")) ∧
    (isErrorString (list_models witClient failNet ("k")).1 ∧
     isErrorString (create_mapping witClient failNet ("k") ("a") ("openai") ("m") ("")).1 ∧
     isErrorString (update_mapping witClient failNet ("k") ("a") ("") ("openai") ("m") ("")
       none).1) :=
  ⟨fun _ => rfl,
   handlers_error_on_http_failure witClient failNet
     ("Server error 500 Internal Server Error")
     ("k") ("a") ("") ("openai") ("m") ("") none (fun _ => rfl)⟩
